import Mathlib

/-!
Shallow embedding of the request-authentication core of the readwise-mcp-remote
gateway (`src/index.js`).  The repository file concatenates three variants of the
server; the embedding covers the primary OAuth variant (its token/code stores,
`validateAccessToken`, the `/token` and `/mcp` handlers and the expiry sweep),
the "enhanced" variant (`validateToken`, its `/token` handler, `apiV2`/`apiV3`
and the three bulk tool handlers) and the simple variant's upstream helpers
(`readwiseV2`/`readerV3`).

JavaScript `Map`s are modelled as association lists with the usual key-unique
`get`/`set`/`delete` semantics; `Date.now()` timestamps are naturals counting
milliseconds; the configured `OAUTH_CLIENT_ID`/`OAUTH_CLIENT_SECRET` pair is an
explicit `OAuthConfig` argument; `crypto.randomUUID()` results are explicit
arguments standing for the freshly generated strings.
-/

namespace ReadwiseMcp

/-- The statically configured client credential pair
(`OAUTH_CLIENT_ID`, `OAUTH_CLIENT_SECRET`). -/
structure OAuthConfig where
  clientId : String
  clientSecret : String
deriving Repr, DecidableEq

/-- Value stored in the `authCodes` map:
`code -> { clientId, redirectUri, createdAt }`. -/
structure CodeData where
  clientId : String
  redirectUri : String
  createdAt : Nat
deriving Repr, DecidableEq

/-- Value stored in the `validTokens` map: `token -> { clientId, createdAt }`. -/
structure TokenData where
  clientId : String
  createdAt : Nat
deriving Repr, DecidableEq

/-- The `authCodes` map, as an association list keyed by the code string. -/
abbrev CodeStore := List (String × CodeData)

/-- The `validTokens` map, as an association list keyed by the token string. -/
abbrev TokenStore := List (String × TokenData)

/-- `Map.get`: first value bound to the key, if any. -/
def mapGet {β : Type} (k : String) : List (String × β) → Option β
  | [] => none
  | (k₂, v) :: rest => if k₂ == k then some v else mapGet k rest

/-- `Map.delete`: remove the binding of the key (keys are unique in a JS `Map`,
so removing every pair with that key is the same operation). -/
def mapDelete {β : Type} (k : String) : List (String × β) → List (String × β)
  | [] => []
  | (k₂, v) :: rest => if k₂ == k then mapDelete k rest else (k₂, v) :: mapDelete k rest

/-- `Map.set` with a key not currently bound (all inserted keys are fresh
`crypto.randomUUID()` values): prepend the binding. -/
def mapSet {β : Type} (k : String) (v : β) (m : List (String × β)) : List (String × β) :=
  (k, v) :: m

theorem mapGet_mapDelete {β : Type} (k k₂ : String) (m : List (String × β)) :
    mapGet k₂ (mapDelete k m) = if k₂ == k then none else mapGet k₂ m := by
  induction m with
  | nil => cases h : (k₂ == k) <;> simp [mapDelete, mapGet, h]
  | cons p rest ih =>
    obtain ⟨k₁, v⟩ := p
    by_cases h1 : k₁ = k <;> by_cases h2 : k₁ = k₂ <;>
      by_cases h3 : k₂ = k <;> simp_all [mapDelete, mapGet]

/-- `validateClientCredentials(clientId, clientSecret)`:
both halves must match the configured pair. -/
def validateClientCredentials (cfg : OAuthConfig) (clientId clientSecret : String) : Bool :=
  clientId == cfg.clientId && clientSecret == cfg.clientSecret

/-- `validateAccessToken(authHeader)` of the primary variant, with the
mutation of the global `validTokens` map made explicit in the result.
`authHeader.startsWith("Bearer ")` is embedded as the equivalent prefix test
`h.take 7 == "Bearer "`; `authHeader.slice(7)` is `h.drop 7`.  A missing
header is `none` (the JS falsy check also catches the empty string, which the
prefix test rejects anyway). -/
def validateAccessToken (now : Nat) (authHeader : Option String)
    (validTokens : TokenStore) : Bool × TokenStore :=
  match authHeader with
  | none => (false, validTokens)
  | some h =>
    if !(h.take 7 == "Bearer ") then (false, validTokens)
    else
      let token := h.drop 7
      match mapGet token validTokens with
      | none => (false, validTokens)
      | some tokenData =>
        if now - tokenData.createdAt > 24 * 60 * 60 * 1000 then
          (false, mapDelete token validTokens)
        else
          (true, validTokens)

/-- `validateToken(authHeader)` of the enhanced variant
(`authHeader?.startsWith("Bearer ")` behaves as the primary variant's guard). -/
def validateToken (now : Nat) (authHeader : Option String)
    (validTokens : TokenStore) : Bool × TokenStore :=
  match authHeader with
  | none => (false, validTokens)
  | some h =>
    if !(h.take 7 == "Bearer ") then (false, validTokens)
    else
      let token := h.drop 7
      match mapGet token validTokens with
      | none => (false, validTokens)
      | some data =>
        if now - data.createdAt > 24 * 60 * 60 * 1000 then
          (false, mapDelete token validTokens)
        else
          (true, validTokens)

/-- The auth-code half of the `setInterval` sweep: iterate over `authCodes`
and delete every entry with `now - data.createdAt > 10 * 60 * 1000`. -/
def sweepCodes (now : Nat) : CodeStore → CodeStore
  | [] => []
  | (code, data) :: rest =>
    if now - data.createdAt > 10 * 60 * 1000 then sweepCodes now rest
    else (code, data) :: sweepCodes now rest

/-- The access-token half of the `setInterval` sweep: iterate over
`validTokens` and delete every entry with
`now - data.createdAt > 24 * 60 * 60 * 1000`. -/
def sweepTokens (now : Nat) : TokenStore → TokenStore
  | [] => []
  | (token, data) :: rest =>
    if now - data.createdAt > 24 * 60 * 60 * 1000 then sweepTokens now rest
    else (token, data) :: sweepTokens now rest

/-- Outcome of a `POST /token` request body.  `success` carries the four fields
of the 200 response: `access_token`, `token_type`, `expires_in`,
`refresh_token`. -/
inductive TokenResult where
  | invalidClient
  | invalidGrant
  | unsupportedGrantType
  | success (accessToken : String) (tokenType : String) (expiresIn : Nat) (refreshToken : String)
deriving Repr, DecidableEq

/-- HTTP status the `/token` handler attaches to each outcome. -/
def tokenHttpStatus : TokenResult → Nat
  | .invalidClient => 401
  | .invalidGrant => 400
  | .unsupportedGrantType => 400
  | .success _ _ _ _ => 200

/-- `app.post("/token")` of the primary variant.  `accessToken` and
`refreshTokenNew` stand for the two `crypto.randomUUID()` results; the shared
minting code after the grant-type dispatch is inlined into the two arms that
reach it.  The result is the response outcome together with the updated
`authCodes` and `validTokens` maps.  A request whose body omits `code` behaves
exactly like one carrying a code string not present in the store. -/
def tokenEndpoint (cfg : OAuthConfig) (now : Nat)
    (accessToken refreshTokenNew : String)
    (grantType code clientId clientSecret : String)
    (authCodes : CodeStore) (validTokens : TokenStore) :
    TokenResult × CodeStore × TokenStore :=
  if !(validateClientCredentials cfg clientId clientSecret) then
    (.invalidClient, authCodes, validTokens)
  else if grantType == "authorization_code" then
    match mapGet code authCodes with
    | none => (.invalidGrant, authCodes, validTokens)
    | some authData =>
      if authData.clientId != clientId then
        (.invalidGrant, authCodes, validTokens)
      else
        (.success accessToken "Bearer" 86400 refreshTokenNew,
         mapDelete code authCodes,
         mapSet accessToken ⟨clientId, now⟩ validTokens)
  else if grantType == "refresh_token" then
    (.success accessToken "Bearer" 86400 refreshTokenNew,
     authCodes,
     mapSet accessToken ⟨clientId, now⟩ validTokens)
  else
    (.unsupportedGrantType, authCodes, validTokens)

/-- `app.post("/token")` of the enhanced variant.  Its grant-type dispatch has
no `refresh_token` branch and no `else`: every grant type other than
`authorization_code` falls through to the minting code.  (The enhanced
variant's `authCodes` values store no `redirectUri`; the field of `CodeData`
is simply unused here.) -/
def tokenEndpointEnhanced (cfg : OAuthConfig) (now : Nat)
    (accessToken refreshTokenNew : String)
    (grantType code clientId clientSecret : String)
    (authCodes : CodeStore) (validTokens : TokenStore) :
    TokenResult × CodeStore × TokenStore :=
  if !(validateClientCredentials cfg clientId clientSecret) then
    (.invalidClient, authCodes, validTokens)
  else if grantType == "authorization_code" then
    match mapGet code authCodes with
    | none => (.invalidGrant, authCodes, validTokens)
    | some authData =>
      if authData.clientId != clientId then
        (.invalidGrant, authCodes, validTokens)
      else
        (.success accessToken "Bearer" 86400 refreshTokenNew,
         mapDelete code authCodes,
         mapSet accessToken ⟨clientId, now⟩ validTokens)
  else
    (.success accessToken "Bearer" 86400 refreshTokenNew,
     authCodes,
     mapSet accessToken ⟨clientId, now⟩ validTokens)

/-- Response side of `app.post("/mcp")`: either the 401 JSON-RPC error body or
a dispatch into a freshly constructed server/transport pair. -/
inductive McpResponse where
  | unauthorized (rpcErrorCode : Int)
  | dispatched
deriving Repr, DecidableEq

/-- Result of the authentication stage of `app.post("/mcp")`:
`registryConstructed` records whether `createMcpServer()` was invoked (the
per-request Tool Registry), and `validTokens` is the store after the
`validateAccessToken` call (which may lazily delete an expired token). -/
structure McpOutcome where
  response : McpResponse
  registryConstructed : Bool
  validTokens : TokenStore
deriving Repr, DecidableEq

/-- `app.post("/mcp")` of the primary variant, up to the point where the call
is handed to the freshly built server and transport. -/
def mcpPost (now : Nat) (authHeader : Option String)
    (validTokens : TokenStore) : McpOutcome :=
  let r := validateAccessToken now authHeader validTokens
  if !r.1 then
    ⟨.unauthorized (-32001), false, r.2⟩
  else
    ⟨.dispatched, true, r.2⟩

/-- An upstream HTTP response as seen by the client helpers: the status code
and the response body text. -/
structure HttpResponse where
  status : Nat
  bodyText : String
deriving Repr, DecidableEq

/-- fetch's `res.ok`: the status is in the 2xx range. -/
def httpOk (res : HttpResponse) : Bool :=
  200 ≤ res.status && res.status ≤ 299

/-- What an upstream client helper does with a response.  `noContent` is the
`{ success: true }` marker; `jsonBody text` is `res.json()` applied to the
body text (at runtime this throws when the text is not JSON, e.g. the empty
body of a 204); `apiError status text` is the thrown `Error` carrying the
status and `await res.text()`. -/
inductive ApiResult where
  | noContent
  | jsonBody (text : String)
  | apiError (status : Nat) (bodyText : String)
deriving Repr, DecidableEq

/-- Response handling of `readwiseV2` (simple/primary variants): no 204 case;
`if (!res.ok) throw ...; return res.json()`. -/
def readwiseV2Result (res : HttpResponse) : ApiResult :=
  if !httpOk res then .apiError res.status res.bodyText
  else .jsonBody res.bodyText

/-- Response handling of `readerV3` (simple/primary variants): identical shape
to `readwiseV2`. -/
def readerV3Result (res : HttpResponse) : ApiResult :=
  if !httpOk res then .apiError res.status res.bodyText
  else .jsonBody res.bodyText

/-- Response handling of the enhanced variant's `apiV2`:
`if (res.status === 204) return { success: true };
if (!res.ok) throw ...; return res.json()`. -/
def apiV2Result (res : HttpResponse) : ApiResult :=
  if res.status == 204 then .noContent
  else if !httpOk res then .apiError res.status res.bodyText
  else .jsonBody res.bodyText

/-- Response handling of the enhanced variant's `apiV3`: identical shape to
`apiV2`. -/
def apiV3Result (res : HttpResponse) : ApiResult :=
  if res.status == 204 then .noContent
  else if !httpOk res then .apiError res.status res.bodyText
  else .jsonBody res.bodyText

/-- One element of the `documents` argument of `bulk_save_documents`. -/
structure SaveDocument where
  url : String
  title : Option String := none
  author : Option String := none
  tags : Option (List String) := none
  location : Option String := none
deriving Repr, DecidableEq

/-- One element of the `updates` argument of `bulk_update_documents`. -/
structure UpdateItem where
  document_id : String
  title : Option String := none
  author : Option String := none
  location : Option String := none
  tags : Option (List String) := none
  seen : Option Bool := none
deriving Repr, DecidableEq

/-- One entry pushed onto `results` by `bulk_save_documents`:
`{ url, success: true, data }` or `{ url, success: false, error }`. -/
inductive SaveItemResult where
  | ok (url : String) (data : String)
  | failed (url : String) (error : String)
deriving Repr, DecidableEq

/-- One entry pushed onto `results` by `bulk_update_documents`. -/
inductive UpdateItemResult where
  | ok (document_id : String) (data : String)
  | failed (document_id : String) (error : String)
deriving Repr, DecidableEq

/-- One entry pushed onto `results` by `bulk_delete_documents`
(the success entry carries no data field). -/
inductive DeleteItemResult where
  | ok (document_id : String)
  | failed (document_id : String) (error : String)
deriving Repr, DecidableEq

/-- A bulk handler's reply: the not-confirmed message (which reports the item
count) or the aggregated `results` list. -/
inductive BulkResponse (α : Type) where
  | notConfirmed (count : Nat)
  | results (items : List α)
deriving Repr, DecidableEq

/-- The `results` list of a bulk reply (empty for the not-confirmed message). -/
def bulkResults {α : Type} : BulkResponse α → List α
  | .notConfirmed _ => []
  | .results items => items

/-- The `for` loop of `bulk_save_documents`.  `api i doc` is the outcome of the
`await apiV3("/save/", { method: "POST", body: doc })` call made for the item
at position `i`: `.ok data` the parsed response, `.error msg` the thrown
error's message.  Indexing the oracle by position models the upstream service
answering each sequential call independently. -/
def bulkSaveLoop (api : Nat → SaveDocument → Except String String) (i : Nat) :
    List SaveDocument → List SaveItemResult
  | [] => []
  | doc :: rest =>
    (match api i doc with
     | .ok data => .ok doc.url data
     | .error e => .failed doc.url e) :: bulkSaveLoop api (i + 1) rest

/-- The `bulk_save_documents` handler body. -/
def bulkSaveDocuments (api : Nat → SaveDocument → Except String String)
    (documents : List SaveDocument) (confirm : Bool) : BulkResponse SaveItemResult :=
  if !confirm then .notConfirmed documents.length
  else .results (bulkSaveLoop api 0 documents)

/-- The `for` loop of `bulk_update_documents`; `api i u` is the outcome of the
`apiV3` PATCH call for the item at position `i`. -/
def bulkUpdateLoop (api : Nat → UpdateItem → Except String String) (i : Nat) :
    List UpdateItem → List UpdateItemResult
  | [] => []
  | u :: rest =>
    (match api i u with
     | .ok data => .ok u.document_id data
     | .error e => .failed u.document_id e) :: bulkUpdateLoop api (i + 1) rest

/-- The `bulk_update_documents` handler body. -/
def bulkUpdateDocuments (api : Nat → UpdateItem → Except String String)
    (updates : List UpdateItem) (confirm : Bool) : BulkResponse UpdateItemResult :=
  if !confirm then .notConfirmed updates.length
  else .results (bulkUpdateLoop api 0 updates)

/-- The `for` loop of `bulk_delete_documents`; `api i id` is the outcome of the
`apiV3` DELETE call for the id at position `i` (its parsed payload is
discarded by the handler). -/
def bulkDeleteLoop (api : Nat → String → Except String String) (i : Nat) :
    List String → List DeleteItemResult
  | [] => []
  | id :: rest =>
    (match api i id with
     | .ok _ => .ok id
     | .error e => .failed id e) :: bulkDeleteLoop api (i + 1) rest

/-- The `bulk_delete_documents` handler body. -/
def bulkDeleteDocuments (api : Nat → String → Except String String)
    (documentIds : List String) (confirm : Bool) : BulkResponse DeleteItemResult :=
  if !confirm then .notConfirmed documentIds.length
  else .results (bulkDeleteLoop api 0 documentIds)

theorem bulkSaveLoop_length (api : Nat → SaveDocument → Except String String)
    (i : Nat) (docs : List SaveDocument) :
    (bulkSaveLoop api i docs).length = docs.length := by
  induction docs generalizing i with
  | nil => rfl
  | cons d rest ih => simp [bulkSaveLoop, ih]

theorem bulkSaveLoop_getElem (api : Nat → SaveDocument → Except String String)
    (i j : Nat) (docs : List SaveDocument) :
    (bulkSaveLoop api i docs)[j]? = (docs[j]?).map
      (fun doc => match api (i + j) doc with
        | .ok data => SaveItemResult.ok doc.url data
        | .error e => SaveItemResult.failed doc.url e) := by
  induction docs generalizing i j with
  | nil => simp [bulkSaveLoop]
  | cons d rest ih =>
    cases j with
    | zero => simp [bulkSaveLoop]
    | succ j =>
      have harith : i + 1 + j = i + (j + 1) := by omega
      simp [bulkSaveLoop, ih, harith]

theorem bulkUpdateLoop_length (api : Nat → UpdateItem → Except String String)
    (i : Nat) (updates : List UpdateItem) :
    (bulkUpdateLoop api i updates).length = updates.length := by
  induction updates generalizing i with
  | nil => rfl
  | cons u rest ih => simp [bulkUpdateLoop, ih]

theorem bulkUpdateLoop_getElem (api : Nat → UpdateItem → Except String String)
    (i j : Nat) (updates : List UpdateItem) :
    (bulkUpdateLoop api i updates)[j]? = (updates[j]?).map
      (fun u => match api (i + j) u with
        | .ok data => UpdateItemResult.ok u.document_id data
        | .error e => UpdateItemResult.failed u.document_id e) := by
  induction updates generalizing i j with
  | nil => simp [bulkUpdateLoop]
  | cons u rest ih =>
    cases j with
    | zero => simp [bulkUpdateLoop]
    | succ j =>
      have harith : i + 1 + j = i + (j + 1) := by omega
      simp [bulkUpdateLoop, ih, harith]

theorem bulkDeleteLoop_length (api : Nat → String → Except String String)
    (i : Nat) (ids : List String) :
    (bulkDeleteLoop api i ids).length = ids.length := by
  induction ids generalizing i with
  | nil => rfl
  | cons id rest ih => simp [bulkDeleteLoop, ih]

theorem bulkDeleteLoop_getElem (api : Nat → String → Except String String)
    (i j : Nat) (ids : List String) :
    (bulkDeleteLoop api i ids)[j]? = (ids[j]?).map
      (fun id => match api (i + j) id with
        | .ok _ => DeleteItemResult.ok id
        | .error e => DeleteItemResult.failed id e) := by
  induction ids generalizing i j with
  | nil => simp [bulkDeleteLoop]
  | cons id rest ih =>
    cases j with
    | zero => simp [bulkDeleteLoop]
    | succ j =>
      have harith : i + 1 + j = i + (j + 1) := by omega
      simp [bulkDeleteLoop, ih, harith]

theorem sweepCodes_sublist (now : Nat) (codes : CodeStore) :
    List.Sublist (sweepCodes now codes) codes := by
  induction codes with
  | nil => exact List.Sublist.slnil
  | cons p rest ih =>
    obtain ⟨c, d⟩ := p
    by_cases h : now - d.createdAt > 10 * 60 * 1000
    · simpa [sweepCodes, h] using List.Sublist.cons (c, d) ih
    · simpa [sweepCodes, h] using List.Sublist.cons₂ (c, d) ih

theorem sweepTokens_sublist (now : Nat) (tokens : TokenStore) :
    List.Sublist (sweepTokens now tokens) tokens := by
  induction tokens with
  | nil => exact List.Sublist.slnil
  | cons p rest ih =>
    obtain ⟨t, d⟩ := p
    by_cases h : now - d.createdAt > 24 * 60 * 60 * 1000
    · simpa [sweepTokens, h] using List.Sublist.cons (t, d) ih
    · simpa [sweepTokens, h] using List.Sublist.cons₂ (t, d) ih

theorem mem_sweepCodes (now : Nat) (codes : CodeStore) (e : String × CodeData) :
    e ∈ sweepCodes now codes ↔ e ∈ codes ∧ now - e.2.createdAt ≤ 10 * 60 * 1000 := by
  induction codes with
  | nil => simp [sweepCodes]
  | cons p rest ih =>
    obtain ⟨c, d⟩ := p
    by_cases h : now - d.createdAt > 10 * 60 * 1000
    · rw [sweepCodes, if_pos h, ih]
      simp only [List.mem_cons]
      constructor
      · exact fun hp => ⟨Or.inr hp.1, hp.2⟩
      · rintro ⟨rfl | he, hle⟩
        · have hle2 : now - d.createdAt ≤ 10 * 60 * 1000 := hle
          omega
        · exact ⟨he, hle⟩
    · rw [sweepCodes, if_neg h]
      simp only [List.mem_cons, ih]
      constructor
      · rintro (rfl | ⟨he, hle⟩)
        · refine ⟨Or.inl rfl, ?_⟩
          show now - d.createdAt ≤ 10 * 60 * 1000
          omega
        · exact ⟨Or.inr he, hle⟩
      · rintro ⟨rfl | he, hle⟩
        · exact Or.inl rfl
        · exact Or.inr ⟨he, hle⟩

theorem mem_sweepTokens (now : Nat) (tokens : TokenStore) (e : String × TokenData) :
    e ∈ sweepTokens now tokens ↔ e ∈ tokens ∧ now - e.2.createdAt ≤ 24 * 60 * 60 * 1000 := by
  induction tokens with
  | nil => simp [sweepTokens]
  | cons p rest ih =>
    obtain ⟨t, d⟩ := p
    by_cases h : now - d.createdAt > 24 * 60 * 60 * 1000
    · rw [sweepTokens, if_pos h, ih]
      simp only [List.mem_cons]
      constructor
      · exact fun hp => ⟨Or.inr hp.1, hp.2⟩
      · rintro ⟨rfl | he, hle⟩
        · have hle2 : now - d.createdAt ≤ 24 * 60 * 60 * 1000 := hle
          omega
        · exact ⟨he, hle⟩
    · rw [sweepTokens, if_neg h]
      simp only [List.mem_cons, ih]
      constructor
      · rintro (rfl | ⟨he, hle⟩)
        · refine ⟨Or.inl rfl, ?_⟩
          show now - d.createdAt ≤ 24 * 60 * 60 * 1000
          omega
        · exact ⟨Or.inr he, hle⟩
      · rintro ⟨rfl | he, hle⟩
        · exact Or.inl rfl
        · exact Or.inr ⟨he, hle⟩

/-- C6: one run of the sweep removes exactly the authorization codes older
than 10 minutes and the access tokens older than 24 hours; every
not-yet-expired entry stays, in place and unchanged (the swept store is a
sublist of the original), and an entry survives the sweep exactly when it was
present and not expired. -/
theorem sweep_removes_exactly_expired (now : Nat) (codes : CodeStore)
    (tokens : TokenStore) :
    List.Sublist (sweepCodes now codes) codes ∧
    List.Sublist (sweepTokens now tokens) tokens ∧
    (∀ e : String × CodeData,
      e ∈ sweepCodes now codes ↔ e ∈ codes ∧ now - e.2.createdAt ≤ 10 * 60 * 1000) ∧
    (∀ e : String × TokenData,
      e ∈ sweepTokens now tokens ↔ e ∈ tokens ∧ now - e.2.createdAt ≤ 24 * 60 * 60 * 1000) :=
  ⟨sweepCodes_sublist now codes, sweepTokens_sublist now tokens,
   mem_sweepCodes now codes, mem_sweepTokens now tokens⟩

/-- C5: an access token whose `created_at` is more than 24 hours in the past
fails `validateAccessToken`, which deletes it from the store as a side effect
of the check; every subsequent presentation of the same token (at any time)
also fails and leaves the store unchanged. -/
theorem expired_token_fails_and_is_removed (now : Nat) (h : String) (d : TokenData)
    (tokens : TokenStore)
    (hpre : (h.take 7 == "Bearer ") = true)
    (hget : mapGet (h.drop 7) tokens = some d)
    (hexp : now - d.createdAt > 24 * 60 * 60 * 1000) :
    validateAccessToken now (some h) tokens = (false, mapDelete (h.drop 7) tokens) ∧
    mapGet (h.drop 7) (mapDelete (h.drop 7) tokens) = none ∧
    (∀ now2 : Nat, validateAccessToken now2 (some h) (mapDelete (h.drop 7) tokens) =
      (false, mapDelete (h.drop 7) tokens)) := by
  refine ⟨?_, ?_, ?_⟩
  · simp [validateAccessToken, hpre, hget, hexp]
  · simp [mapGet_mapDelete]
  · intro now2
    simp [validateAccessToken, hpre, mapGet_mapDelete]

theorem expired_token_fails_and_is_removed_witness :
    ("Bearer t".take 7 == "Bearer ") = true ∧
    mapGet ("Bearer t".drop 7) [("t", TokenData.mk "cid" 0)] = some (TokenData.mk "cid" 0) ∧
    86400001 - (TokenData.mk "cid" 0).createdAt > 24 * 60 * 60 * 1000 ∧
    (validateAccessToken 86400001 (some "Bearer t") [("t", TokenData.mk "cid" 0)] =
       (false, mapDelete ("Bearer t".drop 7) [("t", TokenData.mk "cid" 0)]) ∧
     mapGet ("Bearer t".drop 7)
       (mapDelete ("Bearer t".drop 7) [("t", TokenData.mk "cid" 0)]) = none ∧
     validateAccessToken 5 (some "Bearer t")
       (mapDelete ("Bearer t".drop 7) [("t", TokenData.mk "cid" 0)]) =
       (false, mapDelete ("Bearer t".drop 7) [("t", TokenData.mk "cid" 0)])) :=
  ⟨by decide, by decide, by decide,
   (expired_token_fails_and_is_removed 86400001 "Bearer t" (TokenData.mk "cid" 0)
      [("t", TokenData.mk "cid" 0)] (by decide) (by decide) (by decide)).1,
   (expired_token_fails_and_is_removed 86400001 "Bearer t" (TokenData.mk "cid" 0)
      [("t", TokenData.mk "cid" 0)] (by decide) (by decide) (by decide)).2.1,
   (expired_token_fails_and_is_removed 86400001 "Bearer t" (TokenData.mk "cid" 0)
      [("t", TokenData.mk "cid" 0)] (by decide) (by decide) (by decide)).2.2 5⟩

/-- C4: a `/mcp` request whose `Authorization` header is missing, malformed
(no `Bearer ` prefix), or carries a bearer value not present in the token
store is answered with the unauthorized JSON-RPC error (code `-32001`) and
`createMcpServer()` is never invoked, so no per-call Tool Registry exists and
no upstream call is attempted. -/
theorem unauthorized_mcp_never_builds_registry (now : Nat) (authHeader : Option String)
    (tokens : TokenStore)
    (h : authHeader = none ∨
      (∃ s, authHeader = some s ∧ (s.take 7 == "Bearer ") = false) ∨
      (∃ s, authHeader = some s ∧ mapGet (s.drop 7) tokens = none)) :
    (mcpPost now authHeader tokens).response = McpResponse.unauthorized (-32001) ∧
    (mcpPost now authHeader tokens).registryConstructed = false := by
  rcases h with rfl | ⟨s, rfl, hmal⟩ | ⟨s, rfl, habs⟩
  · simp [mcpPost, validateAccessToken]
  · simp [mcpPost, validateAccessToken, hmal]
  · cases htake : (s.take 7 == "Bearer ") with
    | false => simp [mcpPost, validateAccessToken, htake]
    | true => simp [mcpPost, validateAccessToken, htake, habs]

theorem unauthorized_mcp_never_builds_registry_witness :
    ((none : Option String) = none ∨
      (∃ s, (none : Option String) = some s ∧ (s.take 7 == "Bearer ") = false) ∨
      (∃ s, (none : Option String) = some s ∧
        mapGet (s.drop 7) [("t", TokenData.mk "cid" 0)] = none)) ∧
    (mcpPost 0 none [("t", TokenData.mk "cid" 0)]).response =
      McpResponse.unauthorized (-32001) ∧
    (mcpPost 0 none [("t", TokenData.mk "cid" 0)]).registryConstructed = false :=
  ⟨Or.inl rfl,
   (unauthorized_mcp_never_builds_registry 0 none [("t", TokenData.mk "cid" 0)]
      (Or.inl rfl)).1,
   (unauthorized_mcp_never_builds_registry 0 none [("t", TokenData.mk "cid" 0)]
      (Or.inl rfl)).2⟩

/-- C10: a header that does not begin with the exact, case-sensitive
7-character `Bearer ` prefix — including a missing header — makes
`validateAccessToken` return false with the token store untouched (for every
store and time, so the store is neither read nor modified); when the prefix
is present, the value looked up is exactly the remainder of the header after
those 7 characters, and the enhanced variant's `validateToken` behaves
identically. -/
theorem bearer_header_handling (now : Nat) (store : TokenStore) :
    validateAccessToken now none store = (false, store) ∧
    (∀ h, (h.take 7 == "Bearer ") = false →
      validateAccessToken now (some h) store = (false, store)) ∧
    (∀ h, (h.take 7 == "Bearer ") = true →
      (mapGet (h.drop 7) store = none →
        validateAccessToken now (some h) store = (false, store)) ∧
      (∀ d, mapGet (h.drop 7) store = some d →
        validateAccessToken now (some h) store =
          (if now - d.createdAt > 24 * 60 * 60 * 1000
           then (false, mapDelete (h.drop 7) store) else (true, store)))) ∧
    (∀ (hdr : Option String) (st : TokenStore),
      validateToken now hdr st = validateAccessToken now hdr st) := by
  refine ⟨?_, ?_, ?_, ?_⟩
  · simp [validateAccessToken]
  · intro h hmal
    simp [validateAccessToken, hmal]
  · intro h hpre
    refine ⟨?_, ?_⟩
    · intro habs
      simp [validateAccessToken, hpre, habs]
    · intro d hget
      by_cases hexp : now - d.createdAt > 24 * 60 * 60 * 1000
      · simp [validateAccessToken, hpre, hget, hexp]
      · simp [validateAccessToken, hpre, hget, hexp]
  · intro hdr st
    rfl

theorem bearer_header_handling_witness :
    (("xyz".take 7 == "Bearer ") = false ∧
     validateAccessToken 0 (some "xyz") [("t", TokenData.mk "cid" 0)] =
       (false, [("t", TokenData.mk "cid" 0)])) ∧
    (("Bearer q".take 7 == "Bearer ") = true ∧
     mapGet ("Bearer q".drop 7) [("t", TokenData.mk "cid" 0)] = none ∧
     validateAccessToken 0 (some "Bearer q") [("t", TokenData.mk "cid" 0)] =
       (false, [("t", TokenData.mk "cid" 0)])) ∧
    (mapGet ("Bearer t".drop 7) [("t", TokenData.mk "cid" 0)] = some (TokenData.mk "cid" 0) ∧
     validateAccessToken 9 (some "Bearer t") [("t", TokenData.mk "cid" 0)] =
       (if 9 - (TokenData.mk "cid" 0).createdAt > 24 * 60 * 60 * 1000
        then (false, mapDelete ("Bearer t".drop 7) [("t", TokenData.mk "cid" 0)])
        else (true, [("t", TokenData.mk "cid" 0)]))) ∧
    validateToken 0 none [("t", TokenData.mk "cid" 0)] =
      validateAccessToken 0 none [("t", TokenData.mk "cid" 0)] :=
  ⟨⟨by decide,
    (bearer_header_handling 0 [("t", TokenData.mk "cid" 0)]).2.1 "xyz" (by decide)⟩,
   ⟨by decide, by decide,
    ((bearer_header_handling 0 [("t", TokenData.mk "cid" 0)]).2.2.1 "Bearer q"
       (by decide)).1 (by decide)⟩,
   ⟨by decide,
    ((bearer_header_handling 9 [("t", TokenData.mk "cid" 0)]).2.2.1 "Bearer t"
       (by decide)).2 (TokenData.mk "cid" 0) (by decide)⟩,
   (bearer_header_handling 0 [("t", TokenData.mk "cid" 0)]).2.2.2 none
     [("t", TokenData.mk "cid" 0)]⟩

/-- C2: a first exchange of a stored code with the matching client
credentials and client_id succeeds (Bearer / 86400 response), deletes the
code and stores the minted access token; an exchange of the same code against
any store from which it is absent — in particular every subsequent exchange
after the first — fails with invalid_grant.  Both the primary and the
enhanced `/token` handlers behave this way. -/
theorem code_single_use (cfg : OAuthConfig) (now : Nat) (acc ref code : String)
    (data : CodeData) (authCodes : CodeStore) (validTokens : TokenStore)
    (hget : mapGet code authCodes = some data)
    (hmatch : data.clientId = cfg.clientId) :
    tokenEndpoint cfg now acc ref "authorization_code" code cfg.clientId cfg.clientSecret
        authCodes validTokens =
      (TokenResult.success acc "Bearer" 86400 ref,
       mapDelete code authCodes,
       mapSet acc (TokenData.mk cfg.clientId now) validTokens) ∧
    mapGet code (mapDelete code authCodes) = none ∧
    (∀ (now2 : Nat) (a2 r2 cid2 sec2 : String) (codes2 : CodeStore) (tokens2 : TokenStore),
      validateClientCredentials cfg cid2 sec2 = true →
      mapGet code codes2 = none →
      tokenEndpoint cfg now2 a2 r2 "authorization_code" code cid2 sec2 codes2 tokens2 =
        (TokenResult.invalidGrant, codes2, tokens2)) ∧
    tokenEndpointEnhanced cfg now acc ref "authorization_code" code cfg.clientId
        cfg.clientSecret authCodes validTokens =
      (TokenResult.success acc "Bearer" 86400 ref,
       mapDelete code authCodes,
       mapSet acc (TokenData.mk cfg.clientId now) validTokens) ∧
    (∀ (now2 : Nat) (a2 r2 cid2 sec2 : String) (codes2 : CodeStore) (tokens2 : TokenStore),
      validateClientCredentials cfg cid2 sec2 = true →
      mapGet code codes2 = none →
      tokenEndpointEnhanced cfg now2 a2 r2 "authorization_code" code cid2 sec2 codes2 tokens2 =
        (TokenResult.invalidGrant, codes2, tokens2)) := by
  refine ⟨?_, ?_, ?_, ?_, ?_⟩
  · simp [tokenEndpoint, validateClientCredentials, hget, hmatch]
  · simp [mapGet_mapDelete]
  · intro now2 a2 r2 cid2 sec2 codes2 tokens2 hcred2 habs
    simp [tokenEndpoint, hcred2, habs]
  · simp [tokenEndpointEnhanced, validateClientCredentials, hget, hmatch]
  · intro now2 a2 r2 cid2 sec2 codes2 tokens2 hcred2 habs
    simp [tokenEndpointEnhanced, hcred2, habs]

theorem code_single_use_witness :
    mapGet "c" [("c", CodeData.mk "cid" "r" 0)] = some (CodeData.mk "cid" "r" 0) ∧
    (CodeData.mk "cid" "r" 0).clientId = (OAuthConfig.mk "cid" "sec").clientId ∧
    (tokenEndpoint (OAuthConfig.mk "cid" "sec") 1 "acc" "ref" "authorization_code" "c"
        "cid" "sec" [("c", CodeData.mk "cid" "r" 0)] [] =
      (TokenResult.success "acc" "Bearer" 86400 "ref",
       mapDelete "c" [("c", CodeData.mk "cid" "r" 0)],
       mapSet "acc" (TokenData.mk "cid" 1) []) ∧
     mapGet "c" (mapDelete "c" [("c", CodeData.mk "cid" "r" 0)]) = none ∧
     tokenEndpoint (OAuthConfig.mk "cid" "sec") 2 "a2" "r2" "authorization_code" "c"
        "cid" "sec" (mapDelete "c" [("c", CodeData.mk "cid" "r" 0)])
        (mapSet "acc" (TokenData.mk "cid" 1) []) =
      (TokenResult.invalidGrant, mapDelete "c" [("c", CodeData.mk "cid" "r" 0)],
       mapSet "acc" (TokenData.mk "cid" 1) []) ∧
     tokenEndpointEnhanced (OAuthConfig.mk "cid" "sec") 1 "acc" "ref" "authorization_code" "c"
        "cid" "sec" [("c", CodeData.mk "cid" "r" 0)] [] =
      (TokenResult.success "acc" "Bearer" 86400 "ref",
       mapDelete "c" [("c", CodeData.mk "cid" "r" 0)],
       mapSet "acc" (TokenData.mk "cid" 1) []) ∧
     tokenEndpointEnhanced (OAuthConfig.mk "cid" "sec") 2 "a2" "r2" "authorization_code" "c"
        "cid" "sec" (mapDelete "c" [("c", CodeData.mk "cid" "r" 0)])
        (mapSet "acc" (TokenData.mk "cid" 1) []) =
      (TokenResult.invalidGrant, mapDelete "c" [("c", CodeData.mk "cid" "r" 0)],
       mapSet "acc" (TokenData.mk "cid" 1) [])) :=
  ⟨by decide, by decide,
   (code_single_use (OAuthConfig.mk "cid" "sec") 1 "acc" "ref" "c" (CodeData.mk "cid" "r" 0)
      [("c", CodeData.mk "cid" "r" 0)] [] (by decide) (by decide)).1,
   (code_single_use (OAuthConfig.mk "cid" "sec") 1 "acc" "ref" "c" (CodeData.mk "cid" "r" 0)
      [("c", CodeData.mk "cid" "r" 0)] [] (by decide) (by decide)).2.1,
   (code_single_use (OAuthConfig.mk "cid" "sec") 1 "acc" "ref" "c" (CodeData.mk "cid" "r" 0)
      [("c", CodeData.mk "cid" "r" 0)] [] (by decide) (by decide)).2.2.1 2 "a2" "r2"
      "cid" "sec" (mapDelete "c" [("c", CodeData.mk "cid" "r" 0)])
      (mapSet "acc" (TokenData.mk "cid" 1) []) (by decide) (by decide),
   (code_single_use (OAuthConfig.mk "cid" "sec") 1 "acc" "ref" "c" (CodeData.mk "cid" "r" 0)
      [("c", CodeData.mk "cid" "r" 0)] [] (by decide) (by decide)).2.2.2.1,
   (code_single_use (OAuthConfig.mk "cid" "sec") 1 "acc" "ref" "c" (CodeData.mk "cid" "r" 0)
      [("c", CodeData.mk "cid" "r" 0)] [] (by decide) (by decide)).2.2.2.2 2 "a2" "r2"
      "cid" "sec" (mapDelete "c" [("c", CodeData.mk "cid" "r" 0)])
      (mapSet "acc" (TokenData.mk "cid" 1) []) (by decide) (by decide)⟩

/-- C1 counterexample: with the configured pair ("cid","sec"), a code created
at time 0 and presented at time 660001 ms — more than 10 minutes later — is
still exchanged successfully by the `/token` authorization_code branch, so
the claimed invalid_grant outcome does not occur.  (The exchange performs no
age check; only the 5-minute sweep removes stale codes.) -/
theorem stale_code_exchange_counterexample :
    660001 - (CodeData.mk "cid" "r" 0).createdAt > 10 * 60 * 1000 ∧
    (tokenEndpoint (OAuthConfig.mk "cid" "sec") 660001 "acc" "ref" "authorization_code" "c"
        "cid" "sec" [("c", CodeData.mk "cid" "r" 0)] []).1 =
      TokenResult.success "acc" "Bearer" 86400 "ref" ∧
    (tokenEndpoint (OAuthConfig.mk "cid" "sec") 660001 "acc" "ref" "authorization_code" "c"
        "cid" "sec" [("c", CodeData.mk "cid" "r" 0)] []).1 ≠ TokenResult.invalidGrant := by
  refine ⟨by decide, by decide, by decide⟩

/-- C1 (amended): the `/token` exchange checks only presence in the store and
the recorded clientId, never the code's age: a code more than 10 minutes old
that is still in the store exchanges successfully, at any time.  A sweep run
at such a time removes the code, and an exchange against any store from which
the code is absent fails with invalid_grant — so a stale code is rejected as
if absent only once the periodic sweep has deleted it. -/
theorem stale_code_exchange_behavior (cfg : OAuthConfig) (now : Nat)
    (acc ref code cid sec : String) (data : CodeData)
    (authCodes : CodeStore) (validTokens : TokenStore)
    (hcred : validateClientCredentials cfg cid sec = true)
    (hget : mapGet code authCodes = some data)
    (hmatch : data.clientId = cid)
    (hold : now - data.createdAt > 10 * 60 * 1000) :
    (tokenEndpoint cfg now acc ref "authorization_code" code cid sec
        authCodes validTokens).1 =
      TokenResult.success acc "Bearer" 86400 ref ∧
    (code, data) ∉ sweepCodes now authCodes ∧
    (∀ (now2 : Nat) (a2 r2 cid2 sec2 : String) (codes2 : CodeStore) (tokens2 : TokenStore),
      validateClientCredentials cfg cid2 sec2 = true →
      mapGet code codes2 = none →
      (tokenEndpoint cfg now2 a2 r2 "authorization_code" code cid2 sec2
          codes2 tokens2).1 = TokenResult.invalidGrant) := by
  refine ⟨?_, ?_, ?_⟩
  · simp [tokenEndpoint, hcred, hget, hmatch]
  · rw [mem_sweepCodes]
    rintro ⟨-, hle⟩
    have hle2 : now - data.createdAt ≤ 10 * 60 * 1000 := hle
    omega
  · intro now2 a2 r2 cid2 sec2 codes2 tokens2 hcred2 habs
    simp [tokenEndpoint, hcred2, habs]

theorem stale_code_exchange_behavior_witness :
    validateClientCredentials (OAuthConfig.mk "cid" "sec") "cid" "sec" = true ∧
    mapGet "c" [("c", CodeData.mk "cid" "r" 0)] = some (CodeData.mk "cid" "r" 0) ∧
    660001 - (CodeData.mk "cid" "r" 0).createdAt > 10 * 60 * 1000 ∧
    ((tokenEndpoint (OAuthConfig.mk "cid" "sec") 660001 "acc" "ref" "authorization_code"
        "c" "cid" "sec" [("c", CodeData.mk "cid" "r" 0)] []).1 =
      TokenResult.success "acc" "Bearer" 86400 "ref" ∧
     ("c", CodeData.mk "cid" "r" 0) ∉ sweepCodes 660001 [("c", CodeData.mk "cid" "r" 0)] ∧
     (tokenEndpoint (OAuthConfig.mk "cid" "sec") 7 "a2" "r2" "authorization_code" "c"
        "cid" "sec" [] []).1 = TokenResult.invalidGrant) :=
  ⟨by decide, by decide, by decide,
   (stale_code_exchange_behavior (OAuthConfig.mk "cid" "sec") 660001 "acc" "ref" "c"
      "cid" "sec" (CodeData.mk "cid" "r" 0) [("c", CodeData.mk "cid" "r" 0)] []
      (by decide) (by decide) (by decide) (by decide)).1,
   (stale_code_exchange_behavior (OAuthConfig.mk "cid" "sec") 660001 "acc" "ref" "c"
      "cid" "sec" (CodeData.mk "cid" "r" 0) [("c", CodeData.mk "cid" "r" 0)] []
      (by decide) (by decide) (by decide) (by decide)).2.1,
   (stale_code_exchange_behavior (OAuthConfig.mk "cid" "sec") 660001 "acc" "ref" "c"
      "cid" "sec" (CodeData.mk "cid" "r" 0) [("c", CodeData.mk "cid" "r" 0)] []
      (by decide) (by decide) (by decide) (by decide)).2.2 7 "a2" "r2" "cid" "sec" [] []
      (by decide) (by decide)⟩

/-- C3 counterexample: the enhanced variant's `/token` handler, given valid
client credentials and grant_type "password" (neither authorization_code nor
refresh_token), answers with a 200 success and stores a fresh access token
instead of failing with unsupported_grant_type. -/
theorem unsupported_grant_counterexample :
    tokenEndpointEnhanced (OAuthConfig.mk "cid" "sec") 5 "acc" "ref" "password" "x"
        "cid" "sec" [] [] =
      (TokenResult.success "acc" "Bearer" 86400 "ref", [],
       [("acc", TokenData.mk "cid" 5)]) ∧
    (tokenEndpointEnhanced (OAuthConfig.mk "cid" "sec") 5 "acc" "ref" "password" "x"
        "cid" "sec" [] []).1 ≠ TokenResult.unsupportedGrantType := by
  refine ⟨by decide, by decide⟩

/-- C3 (amended): with valid client credentials and a grant type that is
neither authorization_code nor refresh_token, the primary `/token` handler
fails with unsupported_grant_type (HTTP 400) and leaves both stores
unchanged, minting nothing; the enhanced variant's handler, whose dispatch
has no final else, instead treats every grant type other than
authorization_code like a refresh: it succeeds and stores a fresh access
token. -/
theorem unsupported_grant_dispatch (cfg : OAuthConfig) (now : Nat)
    (acc ref grantType code cid sec : String)
    (authCodes : CodeStore) (validTokens : TokenStore)
    (hcred : validateClientCredentials cfg cid sec = true)
    (hg1 : grantType ≠ "authorization_code")
    (hg2 : grantType ≠ "refresh_token") :
    tokenEndpoint cfg now acc ref grantType code cid sec authCodes validTokens =
      (TokenResult.unsupportedGrantType, authCodes, validTokens) ∧
    tokenHttpStatus TokenResult.unsupportedGrantType = 400 ∧
    tokenEndpointEnhanced cfg now acc ref grantType code cid sec authCodes validTokens =
      (TokenResult.success acc "Bearer" 86400 ref, authCodes,
       mapSet acc (TokenData.mk cid now) validTokens) := by
  refine ⟨?_, rfl, ?_⟩
  · simp [tokenEndpoint, hcred, hg1, hg2]
  · simp [tokenEndpointEnhanced, hcred, hg1]

theorem unsupported_grant_dispatch_witness :
    validateClientCredentials (OAuthConfig.mk "cid" "sec") "cid" "sec" = true ∧
    ("password" : String) ≠ "authorization_code" ∧
    ("password" : String) ≠ "refresh_token" ∧
    (tokenEndpoint (OAuthConfig.mk "cid" "sec") 5 "acc" "ref" "password" "x" "cid" "sec"
        [] [] = (TokenResult.unsupportedGrantType, [], []) ∧
     tokenHttpStatus TokenResult.unsupportedGrantType = 400 ∧
     tokenEndpointEnhanced (OAuthConfig.mk "cid" "sec") 5 "acc" "ref" "password" "x"
        "cid" "sec" [] [] =
      (TokenResult.success "acc" "Bearer" 86400 "ref", [],
       mapSet "acc" (TokenData.mk "cid" 5) [])) :=
  ⟨by decide, by decide, by decide,
   unsupported_grant_dispatch (OAuthConfig.mk "cid" "sec") 5 "acc" "ref" "password" "x"
     "cid" "sec" [] [] (by decide) (by decide) (by decide)⟩

/-- C9 counterexample: with configured pair ("bob","s") and a code recorded
for clientId "alice", the exchange presented by "bob" fails with
invalid_grant (client mismatch) and leaves the code stored — but the later
exchange of the still-stored code by the matching client "alice", even
presenting the configured secret, fails with invalid_client rather than
succeeding, because "alice" can never pass the credential check. -/
theorem mismatch_retry_counterexample :
    tokenEndpoint (OAuthConfig.mk "bob" "s") 5 "acc" "ref" "authorization_code" "c"
        "bob" "s" [("c", CodeData.mk "alice" "r" 0)] [] =
      (TokenResult.invalidGrant, [("c", CodeData.mk "alice" "r" 0)], []) ∧
    validateClientCredentials (OAuthConfig.mk "bob" "s") "alice" "s" = false ∧
    tokenEndpoint (OAuthConfig.mk "bob" "s") 6 "a2" "r2" "authorization_code" "c"
        "alice" "s" [("c", CodeData.mk "alice" "r" 0)] [] =
      (TokenResult.invalidClient, [("c", CodeData.mk "alice" "r" 0)], []) := by
  refine ⟨by decide, by decide, by decide⟩

/-- C9 (amended): an exchange that reaches the authorization_code branch and
fails because the presented client_id differs from the clientId recorded at
issuance returns invalid_grant and leaves both stores unchanged — the failing
exchange does not consume the code — and the still-stored code remains
exchangeable by any caller with valid credentials whose client_id equals the
recorded one.  However, such a mismatch can only arise when the recorded
clientId is not the configured client id, and that recorded client can never
pass the credential check, so the specific client recorded on the code cannot
itself complete a later exchange. -/
theorem mismatch_preserves_code :
    (∀ (cfg : OAuthConfig) (now : Nat) (acc ref code cid sec : String) (data : CodeData)
        (authCodes : CodeStore) (validTokens : TokenStore),
      validateClientCredentials cfg cid sec = true →
      mapGet code authCodes = some data →
      data.clientId ≠ cid →
      tokenEndpoint cfg now acc ref "authorization_code" code cid sec authCodes validTokens =
        (TokenResult.invalidGrant, authCodes, validTokens) ∧
      (∀ sec2 : String, validateClientCredentials cfg data.clientId sec2 = false)) ∧
    (∀ (cfg : OAuthConfig) (now : Nat) (acc ref code cid sec : String) (data : CodeData)
        (authCodes : CodeStore) (validTokens : TokenStore),
      validateClientCredentials cfg cid sec = true →
      mapGet code authCodes = some data →
      data.clientId = cid →
      (tokenEndpoint cfg now acc ref "authorization_code" code cid sec
          authCodes validTokens).1 =
        TokenResult.success acc "Bearer" 86400 ref) := by
  constructor
  · intro cfg now acc ref code cid sec data authCodes validTokens hcred hget hne
    have hcid : cid = cfg.clientId := by
      have hc := hcred
      simp [validateClientCredentials] at hc
      exact hc.1
    refine ⟨?_, ?_⟩
    · simp [tokenEndpoint, hcred, hget, hne]
    · intro sec2
      simp [validateClientCredentials]
      intro had
      exact absurd (had.trans hcid.symm) hne
  · intro cfg now acc ref code cid sec data authCodes validTokens hcred hget hmatch
    simp [tokenEndpoint, hcred, hget, hmatch]

theorem mismatch_preserves_code_witness :
    (validateClientCredentials (OAuthConfig.mk "bob" "s") "bob" "s" = true ∧
     mapGet "c" [("c", CodeData.mk "alice" "r" 0)] = some (CodeData.mk "alice" "r" 0) ∧
     (CodeData.mk "alice" "r" 0).clientId ≠ "bob" ∧
     tokenEndpoint (OAuthConfig.mk "bob" "s") 5 "acc" "ref" "authorization_code" "c"
        "bob" "s" [("c", CodeData.mk "alice" "r" 0)] [] =
       (TokenResult.invalidGrant, [("c", CodeData.mk "alice" "r" 0)], []) ∧
     validateClientCredentials (OAuthConfig.mk "bob" "s")
       (CodeData.mk "alice" "r" 0).clientId "s" = false) ∧
    (validateClientCredentials (OAuthConfig.mk "bob" "s") "bob" "s" = true ∧
     mapGet "c" [("c", CodeData.mk "bob" "r" 0)] = some (CodeData.mk "bob" "r" 0) ∧
     (CodeData.mk "bob" "r" 0).clientId = "bob" ∧
     (tokenEndpoint (OAuthConfig.mk "bob" "s") 5 "acc" "ref" "authorization_code" "c"
        "bob" "s" [("c", CodeData.mk "bob" "r" 0)] []).1 =
       TokenResult.success "acc" "Bearer" 86400 "ref") :=
  ⟨⟨by decide, by decide, by decide,
    (mismatch_preserves_code.1 (OAuthConfig.mk "bob" "s") 5 "acc" "ref" "c" "bob" "s"
       (CodeData.mk "alice" "r" 0) [("c", CodeData.mk "alice" "r" 0)] []
       (by decide) (by decide) (by decide)).1,
    (mismatch_preserves_code.1 (OAuthConfig.mk "bob" "s") 5 "acc" "ref" "c" "bob" "s"
       (CodeData.mk "alice" "r" 0) [("c", CodeData.mk "alice" "r" 0)] []
       (by decide) (by decide) (by decide)).2 "s"⟩,
   ⟨by decide, by decide, by decide,
    mismatch_preserves_code.2 (OAuthConfig.mk "bob" "s") 5 "acc" "ref" "c" "bob" "s"
      (CodeData.mk "bob" "r" 0) [("c", CodeData.mk "bob" "r" 0)] []
      (by decide) (by decide) (by decide)⟩⟩

/-- C7: each of the three bulk handlers, on a confirmed list, produces exactly
one result entry per input item: the item at a failing position is recorded as
failed with that call's error message, and every item — whether before or
after a failure — is enumerated with its own success or failure outcome, so
the batch never aborts early. -/
theorem bulk_continue_on_error
    (sApi : Nat → SaveDocument → Except String String) (docs : List SaveDocument)
    (sk : Nat) (sdoc : SaveDocument) (se : String)
    (hsk : docs[sk]? = some sdoc) (hsf : sApi sk sdoc = Except.error se)
    (uApi : Nat → UpdateItem → Except String String) (ups : List UpdateItem)
    (uk : Nat) (uitem : UpdateItem) (ue : String)
    (huk : ups[uk]? = some uitem) (huf : uApi uk uitem = Except.error ue)
    (dApi : Nat → String → Except String String) (ids : List String)
    (dk : Nat) (did : String) (de : String)
    (hdk : ids[dk]? = some did) (hdf : dApi dk did = Except.error de) :
    ((bulkResults (bulkSaveDocuments sApi docs true)).length = docs.length ∧
     (bulkResults (bulkSaveDocuments sApi docs true))[sk]? =
       some (SaveItemResult.failed sdoc.url se) ∧
     (∀ (j : Nat) (doc : SaveDocument) (d : String), docs[j]? = some doc →
       sApi j doc = Except.ok d →
       (bulkResults (bulkSaveDocuments sApi docs true))[j]? =
         some (SaveItemResult.ok doc.url d)) ∧
     (∀ (j : Nat) (doc : SaveDocument) (msg : String), docs[j]? = some doc →
       sApi j doc = Except.error msg →
       (bulkResults (bulkSaveDocuments sApi docs true))[j]? =
         some (SaveItemResult.failed doc.url msg))) ∧
    ((bulkResults (bulkUpdateDocuments uApi ups true)).length = ups.length ∧
     (bulkResults (bulkUpdateDocuments uApi ups true))[uk]? =
       some (UpdateItemResult.failed uitem.document_id ue) ∧
     (∀ (j : Nat) (u : UpdateItem) (d : String), ups[j]? = some u →
       uApi j u = Except.ok d →
       (bulkResults (bulkUpdateDocuments uApi ups true))[j]? =
         some (UpdateItemResult.ok u.document_id d)) ∧
     (∀ (j : Nat) (u : UpdateItem) (msg : String), ups[j]? = some u →
       uApi j u = Except.error msg →
       (bulkResults (bulkUpdateDocuments uApi ups true))[j]? =
         some (UpdateItemResult.failed u.document_id msg))) ∧
    ((bulkResults (bulkDeleteDocuments dApi ids true)).length = ids.length ∧
     (bulkResults (bulkDeleteDocuments dApi ids true))[dk]? =
       some (DeleteItemResult.failed did de) ∧
     (∀ (j : Nat) (id : String) (d : String), ids[j]? = some id →
       dApi j id = Except.ok d →
       (bulkResults (bulkDeleteDocuments dApi ids true))[j]? =
         some (DeleteItemResult.ok id)) ∧
     (∀ (j : Nat) (id : String) (msg : String), ids[j]? = some id →
       dApi j id = Except.error msg →
       (bulkResults (bulkDeleteDocuments dApi ids true))[j]? =
         some (DeleteItemResult.failed id msg))) := by
  refine ⟨⟨?_, ?_, ?_, ?_⟩, ⟨?_, ?_, ?_, ?_⟩, ⟨?_, ?_, ?_, ?_⟩⟩
  · simp [bulkSaveDocuments, bulkResults, bulkSaveLoop_length]
  · simp [bulkSaveDocuments, bulkResults, bulkSaveLoop_getElem, hsk, hsf]
  · intro j doc d hj hok
    simp [bulkSaveDocuments, bulkResults, bulkSaveLoop_getElem, hj, hok]
  · intro j doc msg hj herr
    simp [bulkSaveDocuments, bulkResults, bulkSaveLoop_getElem, hj, herr]
  · simp [bulkUpdateDocuments, bulkResults, bulkUpdateLoop_length]
  · simp [bulkUpdateDocuments, bulkResults, bulkUpdateLoop_getElem, huk, huf]
  · intro j u d hj hok
    simp [bulkUpdateDocuments, bulkResults, bulkUpdateLoop_getElem, hj, hok]
  · intro j u msg hj herr
    simp [bulkUpdateDocuments, bulkResults, bulkUpdateLoop_getElem, hj, herr]
  · simp [bulkDeleteDocuments, bulkResults, bulkDeleteLoop_length]
  · simp [bulkDeleteDocuments, bulkResults, bulkDeleteLoop_getElem, hdk, hdf]
  · intro j id d hj hok
    simp [bulkDeleteDocuments, bulkResults, bulkDeleteLoop_getElem, hj, hok]
  · intro j id msg hj herr
    simp [bulkDeleteDocuments, bulkResults, bulkDeleteLoop_getElem, hj, herr]

/-- Concrete upstream oracle for exercising `bulk_save_documents`: the call
for the item at position 1 fails, the others succeed. -/
def saveApiW : Nat → SaveDocument → Except String String :=
  fun i _ => if i == 1 then Except.error "boom" else Except.ok "saved"

/-- Concrete three-document batch for `bulk_save_documents`. -/
def docsW : List SaveDocument :=
  [SaveDocument.mk "u0" none none none none,
   SaveDocument.mk "u1" none none none none,
   SaveDocument.mk "u2" none none none none]

/-- Concrete upstream oracle for `bulk_update_documents`: position 0 fails. -/
def updApiW : Nat → UpdateItem → Except String String :=
  fun i _ => if i == 0 then Except.error "nope" else Except.ok "upd"

/-- Concrete two-item batch for `bulk_update_documents`. -/
def upsW : List UpdateItem :=
  [UpdateItem.mk "d0" none none none none none,
   UpdateItem.mk "d1" none none none none none]

/-- Concrete upstream oracle for `bulk_delete_documents`: position 1 fails. -/
def delApiW : Nat → String → Except String String :=
  fun i _ => if i == 1 then Except.error "gone" else Except.ok "deleted"

/-- Concrete two-id batch for `bulk_delete_documents`. -/
def idsW : List String := ["i0", "i1"]

theorem bulk_continue_on_error_witness :
    (docsW[1]? = some (SaveDocument.mk "u1" none none none none) ∧
     saveApiW 1 (SaveDocument.mk "u1" none none none none) = Except.error "boom" ∧
     (bulkResults (bulkSaveDocuments saveApiW docsW true)).length = docsW.length ∧
     (bulkResults (bulkSaveDocuments saveApiW docsW true))[1]? =
       some (SaveItemResult.failed "u1" "boom") ∧
     (bulkResults (bulkSaveDocuments saveApiW docsW true))[2]? =
       some (SaveItemResult.ok "u2" "saved")) ∧
    (upsW[0]? = some (UpdateItem.mk "d0" none none none none none) ∧
     updApiW 0 (UpdateItem.mk "d0" none none none none none) = Except.error "nope" ∧
     (bulkResults (bulkUpdateDocuments updApiW upsW true)).length = upsW.length ∧
     (bulkResults (bulkUpdateDocuments updApiW upsW true))[0]? =
       some (UpdateItemResult.failed "d0" "nope") ∧
     (bulkResults (bulkUpdateDocuments updApiW upsW true))[1]? =
       some (UpdateItemResult.ok "d1" "upd")) ∧
    (idsW[1]? = some "i1" ∧
     delApiW 1 "i1" = Except.error "gone" ∧
     (bulkResults (bulkDeleteDocuments delApiW idsW true)).length = idsW.length ∧
     (bulkResults (bulkDeleteDocuments delApiW idsW true))[1]? =
       some (DeleteItemResult.failed "i1" "gone") ∧
     (bulkResults (bulkDeleteDocuments delApiW idsW true))[0]? =
       some (DeleteItemResult.ok "i0")) :=
  ⟨⟨by decide, rfl,
    (bulk_continue_on_error saveApiW docsW 1 (SaveDocument.mk "u1" none none none none)
       "boom" (by decide) rfl updApiW upsW 0
       (UpdateItem.mk "d0" none none none none none) "nope" (by decide) rfl
       delApiW idsW 1 "i1" "gone" (by decide) rfl).1.1,
    (bulk_continue_on_error saveApiW docsW 1 (SaveDocument.mk "u1" none none none none)
       "boom" (by decide) rfl updApiW upsW 0
       (UpdateItem.mk "d0" none none none none none) "nope" (by decide) rfl
       delApiW idsW 1 "i1" "gone" (by decide) rfl).1.2.1,
    (bulk_continue_on_error saveApiW docsW 1 (SaveDocument.mk "u1" none none none none)
       "boom" (by decide) rfl updApiW upsW 0
       (UpdateItem.mk "d0" none none none none none) "nope" (by decide) rfl
       delApiW idsW 1 "i1" "gone" (by decide) rfl).1.2.2.1 2
       (SaveDocument.mk "u2" none none none none) "saved" (by decide) rfl⟩,
   ⟨by decide, rfl,
    (bulk_continue_on_error saveApiW docsW 1 (SaveDocument.mk "u1" none none none none)
       "boom" (by decide) rfl updApiW upsW 0
       (UpdateItem.mk "d0" none none none none none) "nope" (by decide) rfl
       delApiW idsW 1 "i1" "gone" (by decide) rfl).2.1.1,
    (bulk_continue_on_error saveApiW docsW 1 (SaveDocument.mk "u1" none none none none)
       "boom" (by decide) rfl updApiW upsW 0
       (UpdateItem.mk "d0" none none none none none) "nope" (by decide) rfl
       delApiW idsW 1 "i1" "gone" (by decide) rfl).2.1.2.1,
    (bulk_continue_on_error saveApiW docsW 1 (SaveDocument.mk "u1" none none none none)
       "boom" (by decide) rfl updApiW upsW 0
       (UpdateItem.mk "d0" none none none none none) "nope" (by decide) rfl
       delApiW idsW 1 "i1" "gone" (by decide) rfl).2.1.2.2.1 1
       (UpdateItem.mk "d1" none none none none none) "upd" (by decide) rfl⟩,
   ⟨by decide, rfl,
    (bulk_continue_on_error saveApiW docsW 1 (SaveDocument.mk "u1" none none none none)
       "boom" (by decide) rfl updApiW upsW 0
       (UpdateItem.mk "d0" none none none none none) "nope" (by decide) rfl
       delApiW idsW 1 "i1" "gone" (by decide) rfl).2.2.1,
    (bulk_continue_on_error saveApiW docsW 1 (SaveDocument.mk "u1" none none none none)
       "boom" (by decide) rfl updApiW upsW 0
       (UpdateItem.mk "d0" none none none none none) "nope" (by decide) rfl
       delApiW idsW 1 "i1" "gone" (by decide) rfl).2.2.2.1,
    (bulk_continue_on_error saveApiW docsW 1 (SaveDocument.mk "u1" none none none none)
       "boom" (by decide) rfl updApiW upsW 0
       (UpdateItem.mk "d0" none none none none none) "nope" (by decide) rfl
       delApiW idsW 1 "i1" "gone" (by decide) rfl).2.2.2.2.1 0 "i0" "deleted"
       (by decide) rfl⟩⟩

/-- C8 counterexample: `readwiseV2` (an Upstream API Client invocation on the
v2 surface) has no 204 branch: on a 204 response, whose body is empty, it
does not return the no-payload success marker but falls through to
`res.json()` on the empty body (which throws at runtime), so the claimed
204 normalization does not hold for every client invocation. -/
theorem upstream_204_counterexample :
    readwiseV2Result (HttpResponse.mk 204 "") = ApiResult.jsonBody "" ∧
    readwiseV2Result (HttpResponse.mk 204 "") ≠ ApiResult.noContent := by
  refine ⟨by decide, by decide⟩

/-- C8 (amended): the enhanced variant's `apiV2`/`apiV3` normalize a 204
response to the success marker with no payload, and every non-2xx response
makes all four client helpers (`apiV2`, `apiV3`, `readwiseV2`, `readerV3`)
raise the typed error carrying the HTTP status and the response body text;
but `readwiseV2`/`readerV3` perform no 204 normalization — they pass every ok
response, 204 included, to `res.json()` on its body text. -/
theorem upstream_result_dispatch (res : HttpResponse) :
    (res.status = 204 →
      apiV2Result res = ApiResult.noContent ∧ apiV3Result res = ApiResult.noContent) ∧
    (httpOk res = false →
      apiV2Result res = ApiResult.apiError res.status res.bodyText ∧
      apiV3Result res = ApiResult.apiError res.status res.bodyText ∧
      readwiseV2Result res = ApiResult.apiError res.status res.bodyText ∧
      readerV3Result res = ApiResult.apiError res.status res.bodyText) ∧
    (httpOk res = true →
      readwiseV2Result res = ApiResult.jsonBody res.bodyText ∧
      readerV3Result res = ApiResult.jsonBody res.bodyText) := by
  refine ⟨?_, ?_, ?_⟩
  · intro h204
    simp [apiV2Result, apiV3Result, h204]
  · intro hnok
    have hno : ¬(200 ≤ res.status ∧ res.status ≤ 299) := by
      simpa [httpOk] using hnok
    have h204 : res.status ≠ 204 := by omega
    simp [apiV2Result, apiV3Result, readwiseV2Result, readerV3Result, hnok, h204]
  · intro hok
    simp [readwiseV2Result, readerV3Result, hok]

theorem upstream_result_dispatch_witness :
    ((HttpResponse.mk 204 "").status = 204 ∧
     apiV2Result (HttpResponse.mk 204 "") = ApiResult.noContent ∧
     apiV3Result (HttpResponse.mk 204 "") = ApiResult.noContent) ∧
    (httpOk (HttpResponse.mk 404 "nope") = false ∧
     apiV2Result (HttpResponse.mk 404 "nope") = ApiResult.apiError 404 "nope" ∧
     apiV3Result (HttpResponse.mk 404 "nope") = ApiResult.apiError 404 "nope" ∧
     readwiseV2Result (HttpResponse.mk 404 "nope") = ApiResult.apiError 404 "nope" ∧
     readerV3Result (HttpResponse.mk 404 "nope") = ApiResult.apiError 404 "nope") ∧
    (httpOk (HttpResponse.mk 204 "") = true ∧
     readwiseV2Result (HttpResponse.mk 204 "") = ApiResult.jsonBody "" ∧
     readerV3Result (HttpResponse.mk 204 "") = ApiResult.jsonBody "") :=
  ⟨⟨rfl, (upstream_result_dispatch (HttpResponse.mk 204 "")).1 rfl⟩,
   ⟨by decide,
    (upstream_result_dispatch (HttpResponse.mk 404 "nope")).2.1 (by decide)⟩,
   ⟨by decide,
    (upstream_result_dispatch (HttpResponse.mk 204 "")).2.2 (by decide)⟩⟩
